import Mathlib

/-!
Verification of the request-routing gateway of the IT-equipment management
system (`api-gateway/main.py`, middleware `forward_request`).

The dispatcher is embedded shallowly:
* HTTP header collections are association lists `List (String × String)`
  with lowercase keys, mirroring the case-insensitive, lowercase-keyed
  header dictionaries (`dict(request.headers)`, `httpx.Headers`) the code
  manipulates; `dictGet`/`dictSet`/`popKey` mirror Python dict lookup,
  assignment and `pop` on such unique-key lists.
* Python string operations used by the code (`strip("/")`, `split("/")`,
  `split("//")`, `lower()`, substring `in`) are embedded over `List Char`.
* Body byte strings are modelled as Lean `String`s.
* The pooled transport client (`client.request`) is a function
  `OutboundCall → Except TransportError BackendResponse`; a transport-level
  failure (`httpx.RequestError`) is the `Except.error` case, carrying the
  exception's class name and its textual rendering `str(e)`.
* The JSON codec (`response.json()` / `JSONResponse` re-encoding, i.e.
  Python's `json` module) is an abstract parameter `JsonCodec` bundling
  `parse`, `encode` and the round-trip law; concrete witnesses instantiate
  it with `boolCodec`, the codec of the JSON boolean fragment, which agrees
  with Python's `json.loads`/`json.dumps` on that fragment.
-/

/-! ## Python string primitives over character lists -/

/-- Python `str.strip("/")`: drop leading and trailing slash characters. -/
def stripSlashes (l : List Char) : List Char :=
  ((l.dropWhile (fun c => c == '/')).reverse.dropWhile (fun c => c == '/')).reverse

/-- Prepend a character to the first chunk of a split result. -/
def consHead (c : Char) : List (List Char) → List (List Char)
  | [] => [[c]]
  | w :: ws => (c :: w) :: ws

/-- Python `str.split(sep)` for a one-character separator `sep`. -/
def splitChar (sep : Char) : List Char → List (List Char)
  | [] => [[]]
  | c :: cs => if c = sep then [] :: splitChar sep cs else consHead c (splitChar sep cs)

/-- Python `str.split("//")`: split on the two-character separator `//`,
scanning left to right, non-overlapping. -/
def splitDS : List Char → List (List Char)
  | [] => [[]]
  | '/' :: '/' :: rest => [] :: splitDS rest
  | c :: rest => consHead c (splitDS rest)

/-- Python `str.lower()` (ASCII fragment, the one relevant to header values). -/
def strToLower (s : String) : String :=
  String.mk (s.toList.map Char.toLower)

/-- Substring containment over character lists (Python's `in` on strings). -/
def subList (needle : List Char) : List Char → Bool
  | [] => needle.isEmpty
  | c :: cs => needle.isPrefixOf (c :: cs) || subList needle cs

/-- Python `needle in hay` substring test on strings. -/
def subStr (needle hay : String) : Bool :=
  subList needle.toList hay.toList

/-- `p` is a leading piece of `s` (used to state that a content-type value
declares a given media type, possibly followed by parameters). -/
def strStarts (p s : String) : Bool :=
  p.toList.isPrefixOf s.toList

/-- `ContainsStr n h`: `n` occurs as a contiguous substring of `h`. -/
def ContainsStr (n h : String) : Prop :=
  ∃ p q : List Char, h.data = p ++ (n.data ++ q)

/-! ## Dict operations (Python `dict` over unique-key association lists) -/

/-- Python `d.get(k)` / `k in d` lookup on an association list. -/
def dictGet : List (String × String) → String → Option String
  | [], _ => none
  | p :: ps, k => if p.1 == k then some p.2 else dictGet ps k

/-- Python `d[k] = v`: replace the entry in place when the key is present,
append it otherwise (dict keys are unique in the lists we build). -/
def dictSet : List (String × String) → String → String → List (String × String)
  | [], k, v => [(k, v)]
  | p :: ps, k, v => if p.1 == k then (k, v) :: ps else p :: dictSet ps k v

/-- Python `d.pop(k, None)`: remove the entry with key `k`, if any. -/
def popKey : List (String × String) → String → List (String × String)
  | [], _ => []
  | p :: ps, k => if p.1 == k then popKey ps k else p :: popKey ps k

/-! ## Data model -/

/-- An inbound HTTP request as the middleware sees it: method, URL path,
lowercase-keyed header dict, order-preserving multi-valued query parameters,
and raw body bytes. -/
structure Request where
  method : String
  path : String
  headers : List (String × String)
  queryParams : List (String × String)
  body : String
deriving DecidableEq, Repr

/-- The single outbound HTTP call issued through the pooled client:
`client.request(method=..., url=..., headers=..., params=..., content=...)`. -/
structure OutboundCall where
  method : String
  url : String
  headers : List (String × String)
  params : List (String × String)
  body : String
deriving DecidableEq, Repr

/-- A backend response: status code, lowercase-keyed header dict
(`httpx.Headers`), raw body bytes. -/
structure BackendResponse where
  status : Nat
  headers : List (String × String)
  body : String
deriving DecidableEq, Repr

/-- A transport-level failure (`httpx.RequestError`): the internal exception
class name (connection refused, DNS failure, timeout, ...) and its textual
rendering `str(e)`. -/
structure TransportError where
  kind : String
  text : String
deriving DecidableEq, Repr

/-- The response the gateway hands back for the matched branch:
constructor arguments of `JSONResponse` / `Response`. -/
structure OutResponse where
  body : String
  status : Nat
  headers : List (String × String)
  mediaType : String
deriving DecidableEq, Repr

/-- Outcome of the middleware for one request: fall through to local
handling (`call_next`), a relayed backend response, a raised
`HTTPException(status, detail)`, or an uncaught JSON-decode exception
propagating out of the middleware. -/
inductive DispatchResult where
  | callNext : DispatchResult
  | reply : OutResponse → DispatchResult
  | httpError : Nat → String → DispatchResult
  | decodeError : String → DispatchResult
deriving DecidableEq, Repr

/-- An abstract JSON codec standing for Python's `json` module:
`parse` is `json.loads` (`none` = `JSONDecodeError`), `encode` is
`json.dumps`, and `rt` is the decode-of-encode round-trip law. -/
structure JsonCodec where
  J : Type
  parse : String → Option J
  encode : J → String
  rt : ∀ j : J, parse (encode j) = some j

/-! ## The routing table and path handling -/

/-- The static routing table `SERVICE_URLS` of `api-gateway/main.py`. -/
def SERVICE_URLS : List (String × String) :=
  [("equipment", "http://equipment-service:8001"),
   ("providers", "http://provider-service:8002"),
   ("maintenance", "http://maintenance-service:8003"),
   ("reports", "http://report-service:8004")]

/-- `request.url.path.strip("/").split("/")` from the middleware. -/
def pathParts (p : String) : List String :=
  (splitChar '/' (stripSlashes p.toList)).map String.mk

/-- `path_parts[0]`: the first path segment (the candidate service name). -/
def firstSegment (p : String) : String :=
  (pathParts p).headD ""

/-- `target_url.split("//")[1].split("/")[0]`: the authority (host:port) of
the target URL, as the middleware derives it to overwrite the `Host` header.
Total model of the Python indexing; every target URL built from
`SERVICE_URLS` contains `//`, and `split("/")` never returns an empty list. -/
def hostFromUrl (url : String) : String :=
  String.mk ((splitChar '/' ((splitDS url.toList).getD 1 [])).headD [])

/-! ## The dispatcher -/

/-- The `try:` body of `forward_request` once routing has resolved
`service_name` to the base address `base`: build the target URL, overwrite
the `Host` header, issue the single outbound call, and classify the
backend's response; `except httpx.RequestError` converts exactly the
transport failure into `HTTPException(503, ...)`, while a JSON-decode
failure of `response.json()` is not an `httpx.RequestError` and escapes the
handler. Returns the middleware outcome together with the list of outbound
calls issued. -/
def forwardToBackend (C : JsonCodec)
    (transport : OutboundCall → Except TransportError BackendResponse)
    (req : Request) (service_name : String) (base : String) :
    DispatchResult × List OutboundCall :=
  let target_url := base ++ req.path
  let headers := dictSet req.headers "host" (hostFromUrl target_url)
  let call : OutboundCall :=
    { method := req.method, url := target_url, headers := headers,
      params := req.queryParams, body := req.body }
  match transport call with
  | Except.error e =>
      (DispatchResult.httpError 503
        ("Service " ++ service_name ++ " is unavailable: " ++ e.text), [call])
  | Except.ok response =>
      let content_type := strToLower ((dictGet response.headers "content-type").getD "")
      let forward_headers :=
        popKey (popKey (popKey response.headers "content-encoding") "transfer-encoding") "connection"
      if subStr "application/json" content_type || subStr "application/problem+json" content_type then
        match C.parse response.body with
        | some j =>
            (DispatchResult.reply
              { body := C.encode j, status := response.status,
                headers := forward_headers, mediaType := "application/json" }, [call])
        | none => (DispatchResult.decodeError response.body, [call])
      else
        (DispatchResult.reply
          { body := response.body, status := response.status,
            headers := forward_headers,
            mediaType := if content_type = "" then "application/octet-stream" else content_type },
         [call])

/-- The middleware `forward_request` of `api-gateway/main.py`: split the
path, fall through to `call_next` when the parts are empty or the first
segment is not a routing-table key, otherwise forward to the backend. -/
def forward_request (C : JsonCodec)
    (transport : OutboundCall → Except TransportError BackendResponse)
    (req : Request) : DispatchResult × List OutboundCall :=
  let path_parts := pathParts req.path
  if path_parts = [] then (DispatchResult.callNext, [])
  else
    let service_name := path_parts.headD ""
    match dictGet SERVICE_URLS service_name with
    | none => (DispatchResult.callNext, [])
    | some base => forwardToBackend C transport req service_name base

/-! ## The concrete JSON codec used by witnesses -/

/-- JSON insignificant whitespace (RFC 8259, as accepted by `json.loads`). -/
def jsonWsChar (c : Char) : Bool :=
  c == ' ' || c == '\t' || c == '\n' || c == '\r'

/-- Drop leading and trailing JSON whitespace. -/
def trimWs (l : List Char) : List Char :=
  ((l.dropWhile jsonWsChar).reverse.dropWhile jsonWsChar).reverse

/-- `json.loads` on the boolean fragment of JSON. -/
def boolParse (s : String) : Option Bool :=
  match trimWs s.toList with
  | ['t', 'r', 'u', 'e'] => some true
  | ['f', 'a', 'l', 's', 'e'] => some false
  | _ => none

/-- `json.dumps` on the boolean fragment of JSON. -/
def boolEncode (b : Bool) : String :=
  if b then "true" else "false"

/-- The JSON codec restricted to the boolean fragment; it agrees with
Python's `json` module there. -/
def boolCodec : JsonCodec where
  J := Bool
  parse := boolParse
  encode := boolEncode
  rt := by intro j; cases j <;> decide

/-! ## Claim-side (spec-worded) classification, for comparison -/

/-- The media type a content-type header value declares: the part before the
first `;`, trimmed and lowercased. -/
def declaredMediaType (ct : String) : String :=
  String.mk (trimWs ((splitChar ';' (ct.toList.map Char.toLower)).headD []))

/-- Modelled from the spec's words: a content type is JSON-family when the
media type it declares is exactly `application/json` or
`application/problem+json`. -/
def specJsonFamily (ct : String) : Bool :=
  declaredMediaType ct == "application/json" ||
    declaredMediaType ct == "application/problem+json"

/-! ## Concrete fixtures for witnesses and counterexamples -/

/-- A routable inbound request (`GET /equipment/1`). -/
def reqEq : Request :=
  { method := "GET", path := "/equipment/1",
    headers := [("host", "gateway:8000"), ("accept", "application/json")],
    queryParams := [("a", "1"), ("a", "2")], body := "B" }

/-- An unroutable inbound request (`GET /unknownprefix/x`). -/
def reqUnknown : Request :=
  { method := "GET", path := "/unknownprefix/x", headers := [], queryParams := [], body := "" }

/-- An inbound request for the bare path `/`. -/
def reqRoot : Request :=
  { method := "GET", path := "/", headers := [], queryParams := [], body := "" }

/-- A backend response declaring `application/json` with a valid JSON body. -/
def respJson : BackendResponse :=
  { status := 200,
    headers := [("content-type", "application/json"), ("content-encoding", "gzip"),
                ("transfer-encoding", "chunked"), ("connection", "keep-alive"),
                ("x-extra", "kept")],
    body := "true" }

/-- A backend response with a non-JSON content type and an opaque body. -/
def respBin : BackendResponse :=
  { status := 201, headers := [("content-type", "text/csv")], body := "a,b" }

/-- A backend response declaring `application/json-seq` (not a JSON-family
media type) whose body happens to parse as JSON after whitespace stripping. -/
def respSeq : BackendResponse :=
  { status := 200, headers := [("content-type", "application/json-seq")], body := " true" }

/-- A backend response declaring `application/json` whose body is not valid
JSON. -/
def respBad : BackendResponse :=
  { status := 200, headers := [("content-type", "application/json")], body := "notjson" }

/-- A transport that always succeeds with the given backend response. -/
def trOk (r : BackendResponse) : OutboundCall → Except TransportError BackendResponse :=
  fun _ => Except.ok r

/-- A connection-refused transport error. -/
def errConn : TransportError :=
  { kind := "ConnectError", text := "Connection refused" }

/-- A transport that always fails with `errConn` (backend unreachable). -/
def trFail : OutboundCall → Except TransportError BackendResponse :=
  fun _ => Except.error errConn

/-- The concrete reply the gateway produces for `respJson` on `reqEq`:
hop-by-hop headers removed, JSON body re-encoded. -/
def outJson : OutResponse :=
  { body := "true", status := 200,
    headers := [("content-type", "application/json"), ("x-extra", "kept")],
    mediaType := "application/json" }

/-! ## Basic lemmas -/

theorem consHead_ne_nil (c : Char) (l : List (List Char)) : consHead c l ≠ [] := by
  cases l <;> simp [consHead]

theorem splitChar_ne_nil (sep : Char) (l : List Char) : splitChar sep l ≠ [] := by
  induction l with
  | nil => simp [splitChar]
  | cons c cs ih =>
      simp only [splitChar]
      by_cases hc : c = sep
      · simp [hc]
      · simpa [hc] using consHead_ne_nil c (splitChar sep cs)

theorem pathParts_ne_nil (p : String) : pathParts p ≠ [] := by
  unfold pathParts
  intro h
  exact splitChar_ne_nil '/' (stripSlashes p.toList) (List.map_eq_nil_iff.mp h)

theorem subList_of_pre (n h : List Char) (hp : n.isPrefixOf h = true) :
    subList n h = true := by
  cases h with
  | nil =>
      cases n with
      | nil => rfl
      | cons c cs => simp [List.isPrefixOf] at hp
  | cons c cs => simp [subList, hp]

theorem subStr_of_strStarts (p s : String) (h : strStarts p s = true) :
    subStr p s = true :=
  subList_of_pre p.toList s.toList h

theorem strData_append (s t : String) : (s ++ t).data = s.data ++ t.data := by
  cases s; cases t; rfl

/-! ## Dict lemmas -/

theorem dictGet_dictSet_self (d : List (String × String)) (k v : String) :
    dictGet (dictSet d k v) k = some v := by
  induction d with
  | nil => simp [dictSet, dictGet]
  | cons p ps ih =>
      by_cases hk : p.1 == k
      · simp [dictSet, hk, dictGet]
      · simp only [dictSet, hk]
        simp only [Bool.false_eq_true, if_false, dictGet, hk, ih]

theorem dictGet_dictSet_ne (d : List (String × String)) (k v k2 : String)
    (hne : k2 ≠ k) : dictGet (dictSet d k v) k2 = dictGet d k2 := by
  have hkk2 : (k == k2) = false := by
    simp [beq_eq_false_iff_ne]
    exact fun h => hne h.symm
  induction d with
  | nil => simp [dictSet, dictGet, hkk2]
  | cons p ps ih =>
      by_cases hk : p.1 == k
      · have hp2 : (p.1 == k2) = false := by
          have : p.1 = k := by exact eq_of_beq hk
          simp [this, hkk2]
        simp [dictSet, hk, dictGet, hkk2, hp2]
      · by_cases hp2 : p.1 == k2
        · simp [dictSet, hk, dictGet, hp2]
        · simp [dictSet, hk, dictGet, hp2, ih]

theorem dictGet_popKey_self (d : List (String × String)) (k : String) :
    dictGet (popKey d k) k = none := by
  induction d with
  | nil => simp [popKey, dictGet]
  | cons p ps ih =>
      by_cases hk : p.1 == k
      · simp [popKey, hk, ih]
      · simp [popKey, hk, dictGet, ih]

theorem dictGet_popKey_ne (d : List (String × String)) (k k2 : String)
    (hne : k2 ≠ k) : dictGet (popKey d k) k2 = dictGet d k2 := by
  induction d with
  | nil => simp [popKey]
  | cons p ps ih =>
      by_cases hk : p.1 == k
      · have hp2 : (p.1 == k2) = false := by
          have hpk : p.1 = k := eq_of_beq hk
          simp [hpk, beq_eq_false_iff_ne]
          exact fun h => hne h.symm
        simp [popKey, hk, dictGet, hp2, ih]
      · by_cases hp2 : p.1 == k2
        · simp [popKey, hk, dictGet, hp2]
        · simp [popKey, hk, dictGet, hp2, ih]

/-! ## Characterization of the routed and unrouted paths -/

theorem firstSegment_def (p : String) : (pathParts p).headD "" = firstSegment p := rfl

/-- Routing hit: when the first path segment is a key of `SERVICE_URLS`,
the middleware behaves as `forwardToBackend` on the resolved base address. -/
theorem forward_request_inScope (C : JsonCodec)
    (transport : OutboundCall → Except TransportError BackendResponse)
    (req : Request) (base : String)
    (h : dictGet SERVICE_URLS (firstSegment req.path) = some base) :
    forward_request C transport req =
      forwardToBackend C transport req (firstSegment req.path) base := by
  simp only [forward_request]
  rw [if_neg (pathParts_ne_nil req.path)]
  rw [firstSegment_def, h]

/-- Routing miss: when the first path segment is not a key of
`SERVICE_URLS`, the middleware falls through to `call_next` and issues no
outbound call. -/
theorem forward_request_notRouted (C : JsonCodec)
    (transport : OutboundCall → Except TransportError BackendResponse)
    (req : Request)
    (h : dictGet SERVICE_URLS (firstSegment req.path) = none) :
    forward_request C transport req = (DispatchResult.callNext, []) := by
  simp only [forward_request]
  rw [if_neg (pathParts_ne_nil req.path)]
  rw [firstSegment_def, h]

/-- In scope, the middleware issues exactly one outbound call, and it is the
call built from the request verbatim (with only the `host` entry of the
header dict overwritten). -/
theorem forward_request_calls (C : JsonCodec)
    (transport : OutboundCall → Except TransportError BackendResponse)
    (req : Request) (base : String)
    (h : dictGet SERVICE_URLS (firstSegment req.path) = some base) :
    (forward_request C transport req).2 =
      [{ method := req.method, url := base ++ req.path,
         headers := dictSet req.headers "host" (hostFromUrl (base ++ req.path)),
         params := req.queryParams, body := req.body }] := by
  rw [forward_request_inScope C transport req base h]
  simp only [forwardToBackend]
  cases transport _ with
  | error e => rfl
  | ok response =>
      simp only
      split
      · split <;> rfl
      · rfl

/-! ## Claims -/

/-- C1: for every inbound request whose path's first segment is a key of the
routing table, the dispatcher issues exactly one outbound call, addressed to
that key's backend base address, and the outbound call's method, query
parameters (order and multi-valued keys preserved) and raw body bytes are
identical to those of the inbound request. -/
theorem inScope_single_forward_call (C : JsonCodec)
    (transport : OutboundCall → Except TransportError BackendResponse)
    (req : Request) (base : String)
    (h : dictGet SERVICE_URLS (firstSegment req.path) = some base) :
    ∃ call : OutboundCall,
      (forward_request C transport req).2 = [call] ∧
      call.url = base ++ req.path ∧
      call.method = req.method ∧
      call.params = req.queryParams ∧
      call.body = req.body :=
  ⟨_, forward_request_calls C transport req base h, rfl, rfl, rfl, rfl⟩

theorem inScope_single_forward_call_witness :
    ∃ call : OutboundCall,
      (forward_request boolCodec (trOk respJson) reqEq).2 = [call] ∧
      call.url = "http://equipment-service:8001" ++ reqEq.path ∧
      call.method = reqEq.method ∧
      call.params = reqEq.queryParams ∧
      call.body = reqEq.body :=
  inScope_single_forward_call boolCodec (trOk respJson) reqEq
    "http://equipment-service:8001" (by decide)

/-- C2: when the outbound call fails at the transport level, the client gets
a 503 `HTTPException` whose detail text contains the service name and the
transport error's textual detail, and the response depends only on that
text, never on the internal transport error type. -/
theorem transport_failure_yields_503 (C : JsonCodec)
    (transport : OutboundCall → Except TransportError BackendResponse)
    (req : Request) (base : String) (e : TransportError)
    (h : dictGet SERVICE_URLS (firstSegment req.path) = some base)
    (htr : ∀ c : OutboundCall, transport c = Except.error e) :
    (forward_request C transport req).1 =
      DispatchResult.httpError 503
        ("Service " ++ firstSegment req.path ++ " is unavailable: " ++ e.text) ∧
    ContainsStr (firstSegment req.path)
      ("Service " ++ firstSegment req.path ++ " is unavailable: " ++ e.text) ∧
    ContainsStr e.text
      ("Service " ++ firstSegment req.path ++ " is unavailable: " ++ e.text) ∧
    ∀ e2 : TransportError, e2.text = e.text →
      forward_request C (fun _ => Except.error e2) req = forward_request C transport req := by
  refine ⟨?_, ?_, ?_, ?_⟩
  · rw [forward_request_inScope C transport req base h]
    simp only [forwardToBackend, htr]
  · exact ⟨"Service ".data, (" is unavailable: " ++ e.text).data,
      by simp [strData_append, List.append_assoc]⟩
  · exact ⟨("Service " ++ firstSegment req.path ++ " is unavailable: ").data, [],
      by simp [strData_append, List.append_assoc]⟩
  · intro e2 htext
    rw [forward_request_inScope C (fun _ => Except.error e2) req base h,
        forward_request_inScope C transport req base h]
    simp only [forwardToBackend, htr, htext]

theorem transport_failure_yields_503_witness :
    (forward_request boolCodec trFail reqEq).1 =
      DispatchResult.httpError 503
        ("Service " ++ firstSegment reqEq.path ++ " is unavailable: " ++ errConn.text) :=
  (transport_failure_yields_503 boolCodec trFail reqEq "http://equipment-service:8001"
    errConn (by decide) (fun c => rfl)).1

/-- C3: for every backend response declaring a JSON-family content type
(`application/json` or `application/problem+json`, possibly with parameters)
whose body parses as JSON, the gateway replies with a body that parses back
to the same JSON value (decode/re-encode round trip) and relays the status
code unchanged. -/
theorem json_backend_roundtrip (C : JsonCodec)
    (transport : OutboundCall → Except TransportError BackendResponse)
    (req : Request) (base : String) (resp : BackendResponse) (j : C.J)
    (h : dictGet SERVICE_URLS (firstSegment req.path) = some base)
    (htr : ∀ c : OutboundCall, transport c = Except.ok resp)
    (hct : strStarts "application/json"
             (strToLower ((dictGet resp.headers "content-type").getD "")) = true ∨
           strStarts "application/problem+json"
             (strToLower ((dictGet resp.headers "content-type").getD "")) = true)
    (hparse : C.parse resp.body = some j) :
    ∃ out : OutResponse,
      (forward_request C transport req).1 = DispatchResult.reply out ∧
      C.parse out.body = some j ∧
      out.status = resp.status := by
  rw [forward_request_inScope C transport req base h]
  simp only [forwardToBackend, htr]
  have hcond : (subStr "application/json"
        (strToLower ((dictGet resp.headers "content-type").getD "")) ||
      subStr "application/problem+json"
        (strToLower ((dictGet resp.headers "content-type").getD ""))) = true := by
    cases hct with
    | inl h2 => simp [subStr_of_strStarts _ _ h2]
    | inr h2 => simp [subStr_of_strStarts _ _ h2]
  rw [if_pos hcond, hparse]
  exact ⟨_, rfl, C.rt j, rfl⟩

theorem json_backend_roundtrip_witness :
    ∃ out : OutResponse,
      (forward_request boolCodec (trOk respJson) reqEq).1 = DispatchResult.reply out ∧
      boolCodec.parse out.body = some true ∧
      out.status = respJson.status :=
  json_backend_roundtrip boolCodec (trOk respJson) reqEq "http://equipment-service:8001"
    respJson true (by decide) (fun c => rfl) (Or.inl (by decide))
    (by exact (show boolParse respJson.body = some true by decide))

/-- C4 counterexample: the backend response `respSeq` declares the content
type `application/json-seq`, which is not a JSON-family media type, yet the
gateway's JSON-classification (a substring test) decodes and re-encodes its
body as JSON: the outbound body `"true"` differs from the backend's raw body
bytes `" true"` and the declared media type becomes `application/json`. -/
theorem nonJsonFamily_passthrough_cex :
    specJsonFamily "application/json-seq" = false ∧
    dictGet respSeq.headers "content-type" = some "application/json-seq" ∧
    (forward_request boolCodec (trOk respSeq) reqEq).1 =
      DispatchResult.reply
        { body := "true", status := 200,
          headers := [("content-type", "application/json-seq")],
          mediaType := "application/json" } ∧
    respSeq.body ≠ "true" := by decide

/-- C4 (amended): for every backend response whose lowercased content-type
value does not contain `application/json` or `application/problem+json` as a
substring, the outbound body bytes are byte-for-byte the backend's raw body,
the gateway passes the (lowercased) backend content type as the media type —
`application/octet-stream` when the backend declared none — the backend's
headers are forwarded with only the three hop-by-hop entries removed, and
the status code is relayed unchanged. -/
theorem nonJson_contentType_passthrough (C : JsonCodec)
    (transport : OutboundCall → Except TransportError BackendResponse)
    (req : Request) (base : String) (resp : BackendResponse)
    (h : dictGet SERVICE_URLS (firstSegment req.path) = some base)
    (htr : ∀ c : OutboundCall, transport c = Except.ok resp)
    (hct1 : subStr "application/json"
       (strToLower ((dictGet resp.headers "content-type").getD "")) = false)
    (hct2 : subStr "application/problem+json"
       (strToLower ((dictGet resp.headers "content-type").getD "")) = false) :
    (forward_request C transport req).1 =
      DispatchResult.reply
        { body := resp.body, status := resp.status,
          headers := popKey (popKey (popKey resp.headers "content-encoding")
            "transfer-encoding") "connection",
          mediaType :=
            if strToLower ((dictGet resp.headers "content-type").getD "") = ""
            then "application/octet-stream"
            else strToLower ((dictGet resp.headers "content-type").getD "") } := by
  rw [forward_request_inScope C transport req base h]
  simp only [forwardToBackend, htr]
  rw [if_neg (by simp [hct1, hct2])]

theorem nonJson_contentType_passthrough_witness :
    (forward_request boolCodec (trOk respBin) reqEq).1 =
      DispatchResult.reply
        { body := respBin.body, status := respBin.status,
          headers := popKey (popKey (popKey respBin.headers "content-encoding")
            "transfer-encoding") "connection",
          mediaType :=
            if strToLower ((dictGet respBin.headers "content-type").getD "") = ""
            then "application/octet-stream"
            else strToLower ((dictGet respBin.headers "content-type").getD "") } :=
  nonJson_contentType_passthrough boolCodec (trOk respBin) reqEq
    "http://equipment-service:8001" respBin (by decide) (fun c => rfl)
    (by decide) (by decide)

/-- C5: for every inbound request whose path's first segment is not a key of
the routing table, no outbound call is made and the request falls through
unmodified to local handling (`call_next`), which is not an error. -/
theorem unknown_service_falls_through (C : JsonCodec)
    (transport : OutboundCall → Except TransportError BackendResponse)
    (req : Request)
    (h : dictGet SERVICE_URLS (firstSegment req.path) = none) :
    forward_request C transport req = (DispatchResult.callNext, []) :=
  forward_request_notRouted C transport req h

theorem unknown_service_falls_through_witness :
    forward_request boolCodec (trOk respJson) reqUnknown = (DispatchResult.callNext, []) :=
  unknown_service_falls_through boolCodec (trOk respJson) reqUnknown (by decide)

/-- Whenever the middleware relays a backend reply (either branch), the
outbound headers are the backend's headers with the three hop-by-hop entries
popped. -/
theorem reply_headers_eq (C : JsonCodec)
    (transport : OutboundCall → Except TransportError BackendResponse)
    (req : Request) (base : String) (resp : BackendResponse) (out : OutResponse)
    (h : dictGet SERVICE_URLS (firstSegment req.path) = some base)
    (htr : ∀ c : OutboundCall, transport c = Except.ok resp)
    (hout : (forward_request C transport req).1 = DispatchResult.reply out) :
    out.headers =
      popKey (popKey (popKey resp.headers "content-encoding") "transfer-encoding")
        "connection" := by
  rw [forward_request_inScope C transport req base h] at hout
  simp only [forwardToBackend, htr] at hout
  split at hout
  · split at hout
    · simp only at hout
      cases hout
      rfl
    · simp at hout
  · simp only at hout
    cases hout
    rfl

/-- C6: the gateway's outbound response never contains the headers
`content-encoding`, `transfer-encoding` or `connection`, even when the
backend response contained them, while every other backend response header
is forwarded unchanged. -/
theorem hop_by_hop_headers_stripped (C : JsonCodec)
    (transport : OutboundCall → Except TransportError BackendResponse)
    (req : Request) (base : String) (resp : BackendResponse) (out : OutResponse)
    (h : dictGet SERVICE_URLS (firstSegment req.path) = some base)
    (htr : ∀ c : OutboundCall, transport c = Except.ok resp)
    (hout : (forward_request C transport req).1 = DispatchResult.reply out) :
    dictGet out.headers "content-encoding" = none ∧
    dictGet out.headers "transfer-encoding" = none ∧
    dictGet out.headers "connection" = none ∧
    ∀ k : String, k ≠ "content-encoding" → k ≠ "transfer-encoding" → k ≠ "connection" →
      dictGet out.headers k = dictGet resp.headers k := by
  rw [reply_headers_eq C transport req base resp out h htr hout]
  refine ⟨?_, ?_, ?_, ?_⟩
  · rw [dictGet_popKey_ne _ _ _ (by decide), dictGet_popKey_ne _ _ _ (by decide)]
    exact dictGet_popKey_self _ _
  · rw [dictGet_popKey_ne _ _ _ (by decide)]
    exact dictGet_popKey_self _ _
  · exact dictGet_popKey_self _ _
  · intro k h1 h2 h3
    rw [dictGet_popKey_ne _ _ _ h3, dictGet_popKey_ne _ _ _ h2,
        dictGet_popKey_ne _ _ _ h1]

theorem hop_by_hop_headers_stripped_witness :
    dictGet outJson.headers "content-encoding" = none ∧
    dictGet outJson.headers "transfer-encoding" = none ∧
    dictGet outJson.headers "connection" = none ∧
    ∀ k : String, k ≠ "content-encoding" → k ≠ "transfer-encoding" → k ≠ "connection" →
      dictGet outJson.headers k = dictGet respJson.headers k :=
  hop_by_hop_headers_stripped boolCodec (trOk respJson) reqEq
    "http://equipment-service:8001" respJson outJson (by decide) (fun c => rfl)
    (by decide)

/-- C7: every inbound request header is forwarded to the backend as-is,
except the `host` entry, which is overwritten to the host:port parsed out of
the target URL; no other request header is modified. -/
theorem host_header_overwritten (C : JsonCodec)
    (transport : OutboundCall → Except TransportError BackendResponse)
    (req : Request) (base : String)
    (h : dictGet SERVICE_URLS (firstSegment req.path) = some base) :
    ∃ call : OutboundCall,
      (forward_request C transport req).2 = [call] ∧
      dictGet call.headers "host" = some (hostFromUrl (base ++ req.path)) ∧
      ∀ k : String, k ≠ "host" → dictGet call.headers k = dictGet req.headers k := by
  refine ⟨_, forward_request_calls C transport req base h, ?_, ?_⟩
  · exact dictGet_dictSet_self req.headers "host" (hostFromUrl (base ++ req.path))
  · intro k hk
    exact dictGet_dictSet_ne req.headers "host" (hostFromUrl (base ++ req.path)) k hk

theorem host_header_overwritten_witness :
    ∃ call : OutboundCall,
      (forward_request boolCodec (trOk respJson) reqEq).2 = [call] ∧
      dictGet call.headers "host" =
        some (hostFromUrl ("http://equipment-service:8001" ++ reqEq.path)) ∧
      ∀ k : String, k ≠ "host" → dictGet call.headers k = dictGet reqEq.headers k :=
  host_header_overwritten boolCodec (trOk respJson) reqEq
    "http://equipment-service:8001" (by decide)

/-- C8: when the backend declares a JSON-family content type but its body is
not valid JSON, the decode failure propagates as an error out of the
middleware: it is not swallowed and is not translated into the 503
`ServiceUnavailable` response, which only the transport failure produces. -/
theorem malformed_json_propagates (C : JsonCodec)
    (transport : OutboundCall → Except TransportError BackendResponse)
    (req : Request) (base : String) (resp : BackendResponse)
    (h : dictGet SERVICE_URLS (firstSegment req.path) = some base)
    (htr : ∀ c : OutboundCall, transport c = Except.ok resp)
    (hct : strStarts "application/json"
             (strToLower ((dictGet resp.headers "content-type").getD "")) = true ∨
           strStarts "application/problem+json"
             (strToLower ((dictGet resp.headers "content-type").getD "")) = true)
    (hparse : C.parse resp.body = none) :
    (forward_request C transport req).1 = DispatchResult.decodeError resp.body ∧
    ∀ d : String, (forward_request C transport req).1 ≠ DispatchResult.httpError 503 d := by
  have hcond : (subStr "application/json"
        (strToLower ((dictGet resp.headers "content-type").getD "")) ||
      subStr "application/problem+json"
        (strToLower ((dictGet resp.headers "content-type").getD ""))) = true := by
    cases hct with
    | inl h2 => simp [subStr_of_strStarts _ _ h2]
    | inr h2 => simp [subStr_of_strStarts _ _ h2]
  have h1 : (forward_request C transport req).1 = DispatchResult.decodeError resp.body := by
    rw [forward_request_inScope C transport req base h]
    simp only [forwardToBackend, htr]
    rw [if_pos hcond, hparse]
  refine ⟨h1, fun d hd => ?_⟩
  rw [h1] at hd
  exact DispatchResult.noConfusion hd

theorem malformed_json_propagates_witness :
    (forward_request boolCodec (trOk respBad) reqEq).1 =
      DispatchResult.decodeError respBad.body ∧
    ∀ d : String,
      (forward_request boolCodec (trOk respBad) reqEq).1 ≠ DispatchResult.httpError 503 d :=
  malformed_json_propagates boolCodec (trOk respBad) reqEq
    "http://equipment-service:8001" respBad (by decide) (fun c => rfl)
    (Or.inl (by decide)) (by exact (show boolParse respBad.body = none by decide))

/-- C9: the outbound target URL is the resolved backend base address
concatenated with the original request path verbatim: no path rewriting, the
matched service prefix is not stripped. -/
theorem target_url_verbatim_path (C : JsonCodec)
    (transport : OutboundCall → Except TransportError BackendResponse)
    (req : Request) (base : String)
    (h : dictGet SERVICE_URLS (firstSegment req.path) = some base) :
    ∃ call : OutboundCall,
      (forward_request C transport req).2 = [call] ∧
      call.url = base ++ req.path :=
  ⟨_, forward_request_calls C transport req base h, rfl⟩

theorem target_url_verbatim_path_witness :
    ∃ call : OutboundCall,
      (forward_request boolCodec (trOk respJson) reqEq).2 = [call] ∧
      call.url = "http://equipment-service:8001" ++ reqEq.path :=
  target_url_verbatim_path boolCodec (trOk respJson) reqEq
    "http://equipment-service:8001" (by decide)

/-- C10: path splitting is total — strip-then-split always yields a
non-empty list, so taking element 0 never fails and the dispatcher's
empty-list guard is unreachable; the paths `/` and the empty path give the
empty first segment, which matches no routing key, so such requests always
fall through to local handling. -/
theorem path_split_total_guard_unreachable :
    (∀ p : String, pathParts p ≠ []) ∧
    firstSegment "/" = "" ∧
    firstSegment "" = "" ∧
    dictGet SERVICE_URLS "" = none ∧
    ∀ (C : JsonCodec) (transport : OutboundCall → Except TransportError BackendResponse)
      (req : Request), req.path = "/" ∨ req.path = "" →
        forward_request C transport req = (DispatchResult.callNext, []) := by
  refine ⟨pathParts_ne_nil, by decide, by decide, by decide, ?_⟩
  intro C transport req hp
  apply forward_request_notRouted
  rcases hp with h2 | h2 <;> rw [h2] <;> decide

theorem path_split_total_guard_unreachable_witness :
    pathParts "/health" ≠ [] ∧
    forward_request boolCodec trFail reqRoot = (DispatchResult.callNext, []) :=
  ⟨path_split_total_guard_unreachable.1 "/health",
   path_split_total_guard_unreachable.2.2.2.2 boolCodec trFail reqRoot (Or.inl rfl)⟩
